import Mathlib

/-!
Shallow embedding of the health-check harness in `health_check.py`:
the two probe helpers `check_endpoint` and `check_ui_accessibility`,
and the aggregation logic of `main` (the `health_status` dict, the
health score, the verdict thresholds with their exit codes, the
recommendation output and the scheme-only SSL check).
-/

namespace HealthCheck

/-- Outcome of the external HTTP call made by a probe: either a response
with a status code, or one of the exception classes the source catches
(`requests.exceptions.SSLError`, `ConnectionError`, `Timeout`, and the
catch-all `Exception`), each carrying its description `str(e)`. -/
inductive ProbeOutcome where
  | response (statusCode : Nat)
  | sslError (msg : String)
  | connectionError (msg : String)
  | timeout (msg : String)
  | otherError (msg : String)
deriving DecidableEq

/-- Whether the outcome is an exception (the probe call raised). -/
def ProbeOutcome.isException : ProbeOutcome → Bool
  | .response _ => false
  | _ => true

/-- The description `str(e)` of an exceptional outcome. -/
def ProbeOutcome.message : ProbeOutcome → String
  | .response _ => ""
  | .sslError m => m
  | .connectionError m => m
  | .timeout m => m
  | .otherError m => m

/-- `check_endpoint` (health_check.py lines 18-37): returns
`(ok, response_time, status_code, error)`.  A 200 response is healthy
with no error; any other status code yields `"HTTP <code>"`; each
caught exception yields `(False, 0, 0, "<category>: " ++ str(e))`.
The elapsed time of a successful call is an external input. -/
def check_endpoint (outcome : ProbeOutcome) (responseTime : ℚ) :
    Bool × ℚ × Nat × Option String :=
  match outcome with
  | .response code =>
      if code == 200 then (true, responseTime, code, none)
      else (false, responseTime, code, some ("HTTP " ++ toString code))
  | .sslError m => (false, 0, 0, some ("SSL Error: " ++ m))
  | .connectionError m => (false, 0, 0, some ("Connection Error: " ++ m))
  | .timeout m => (false, 0, 0, some ("Timeout: " ++ m))
  | .otherError m => (false, 0, 0, some ("Error: " ++ m))

/-- `check_ui_accessibility` (health_check.py lines 39-48): returns
`(ok, status_code, error)`.  A single `except Exception` branch returns
`(False, 0, str(e))` — the bare description, with no category prefix. -/
def check_ui_accessibility (outcome : ProbeOutcome) :
    Bool × Nat × Option String :=
  match outcome with
  | .response code =>
      if code == 200 then (true, code, none)
      else (false, code, some ("HTTP " ++ toString code))
  | o => (false, 0, some o.message)

/-- The `health_status` dict: an insertion-ordered mapping from component
name to boolean health, exactly as a Python dict. -/
abbrev HealthStatusMap := List (String × Bool)

/-- `health_status` as initialized in `main` (lines 68-73): the four
declared components, all defaulting to unhealthy. -/
def initialHealthStatus : HealthStatusMap :=
  [("dashboard_ui", false), ("manager_api", false),
   ("indexer_api", false), ("ssl_validation", false)]

/-- The declared component names in declaration order. -/
def declaredComponents : List String :=
  ["dashboard_ui", "manager_api", "indexer_api", "ssl_validation"]

/-- Recording a probe result is the Python dict assignment
`health_status[name] = value`: it overwrites the entry of an existing
key in place (insertion order preserved) and appends a brand-new key at
the end.  Python raises no error for an undeclared key. -/
def recordResult (m : HealthStatusMap) (k : String) (v : Bool) :
    HealthStatusMap :=
  if m.any (fun p => p.1 == k) then
    m.map (fun p => cond (p.1 == k) (p.1, v) p)
  else m ++ [(k, v)]

/-- `sum(health_status.values())` (line 124): Python sums booleans as
0/1, so this is the count of healthy entries. -/
def healthyComponents (m : HealthStatusMap) : Nat :=
  (m.map (fun p => if p.2 then 1 else 0)).sum

/-- `len(health_status)` (line 125). -/
def totalComponents (m : HealthStatusMap) : Nat := m.length

/-- `health_score = (healthy_components / total_components) * 100`
(line 126), over exact rationals (with the four-entry map the Python
float arithmetic is exact, so the values coincide). -/
def computeScore (m : HealthStatusMap) : ℚ :=
  ((healthyComponents m : ℚ) / (totalComponents m : ℚ)) * 100

/-- The three-way verdict conveyed by the final status block. -/
inductive Verdict where
  | healthy
  | degraded
  | unhealthy
deriving DecidableEq

/-- The branch selected by the final if-chain (lines 155-163):
`score >= 75` healthy, `score >= 50` degraded, otherwise unhealthy. -/
def classify (score : ℚ) : Verdict :=
  if score ≥ 75 then .healthy
  else if score ≥ 50 then .degraded
  else .unhealthy

/-- The return value of each verdict branch. -/
def exitCode : Verdict → Nat
  | .healthy => 0
  | .degraded => 1
  | .unhealthy => 2

/-- The value `main` returns (lines 154-163), translated literally. -/
def finalStatus (score : ℚ) : Nat :=
  if score ≥ 75 then 0
  else if score ≥ 50 then 1
  else 2

/-- The two dashboard remediation lines (lines 142-143). -/
def dashboardHints : List String :=
  ["Check dashboard service status and network connectivity",
   "Verify dashboard is running on the expected port"]

/-- The two manager-API remediation lines (lines 145-146). -/
def managerHints : List String :=
  ["Verify manager service is running",
   "Check manager API configuration and firewall rules"]

/-- The two indexer-API remediation lines (lines 148-149). -/
def indexerHints : List String :=
  ["Check indexer service status",
   "Verify indexer cluster health"]

/-- The two SSL remediation lines (lines 151-152). -/
def sslHints : List String :=
  ["Ensure all endpoints use HTTPS",
   "Check SSL certificate configuration"]

/-- The fixed remediation strings keyed by component name. -/
def componentHints (k : String) : List String :=
  if k == "dashboard_ui" then dashboardHints
  else if k == "manager_api" then managerHints
  else if k == "indexer_api" then indexerHints
  else if k == "ssl_validation" then sslHints
  else []

/-- The recommendation block (lines 139-152): emitted only when the
score is below 100, one fixed pair of lines per unhealthy component,
in the fixed source order.  In every run the four keys are present, so
`m.lookup k == some false` is exactly `not health_status[k]`. -/
def recommend (score : ℚ) (m : HealthStatusMap) : List String :=
  if score < 100 then
    (if m.lookup "dashboard_ui" == some false then dashboardHints else [])
    ++ (if m.lookup "manager_api" == some false then managerHints else [])
    ++ (if m.lookup "indexer_api" == some false then indexerHints else [])
    ++ (if m.lookup "ssl_validation" == some false then sslHints else [])
  else []

/-- A configured URL together with its scheme as extracted by the
external `urllib.parse.urlparse` collaborator. -/
structure Url where
  raw : String
  scheme : String
deriving DecidableEq

/-- The `config` dict of `main` (lines 56-60): the three endpoint URLs. -/
structure Config where
  dashboard_url : Url
  manager_api_url : Url
  indexer_url : Url
deriving DecidableEq

/-- The `ssl_issues` list (lines 104-115): iterate the three endpoints
in order and collect the names whose URL scheme is not `https`. -/
def sslIssues (c : Config) : List String :=
  ([("Dashboard", c.dashboard_url), ("Manager API", c.manager_api_url),
    ("Indexer API", c.indexer_url)]).foldl
    (fun issues p => cond (p.2.scheme == "https") issues
      (issues ++ [p.1])) []

/-- An HTTP request as issued by the harness: the URL and the
certificate-verification flag passed to `requests.get`. -/
structure HttpRequest where
  url : String
  verify : Bool
deriving DecidableEq

/-- The requests a run issues (lines 77, 86, 95): every `requests.get`
in the source is written with `verify=False`. -/
def requestsIssued (c : Config) : List HttpRequest :=
  [⟨c.dashboard_url.raw, false⟩, ⟨c.manager_api_url.raw, false⟩,
   ⟨c.indexer_url.raw, false⟩]

/-- The external inputs of one run: what each probe call returned. -/
structure RunInput where
  dashboardOutcome : ProbeOutcome
  managerOutcome : ProbeOutcome
  managerTime : ℚ
  indexerOutcome : ProbeOutcome
  indexerTime : ℚ

/-- `accessible` for the dashboard probe (line 77). -/
def dashboardAccessible (inp : RunInput) : Bool :=
  (check_ui_accessibility inp.dashboardOutcome).1

/-- `accessible` for the manager-API probe (line 86). -/
def managerAccessible (inp : RunInput) : Bool :=
  (check_endpoint inp.managerOutcome inp.managerTime).1

/-- `accessible` for the indexer-API probe (line 95). -/
def indexerAccessible (inp : RunInput) : Bool :=
  (check_endpoint inp.indexerOutcome inp.indexerTime).1

/-- `not ssl_issues` (line 117): the SSL check passes when the issue
list is empty. -/
def sslConfigured (c : Config) : Bool := (sslIssues c).isEmpty

/-- One conditional update block of `main`: when the probe succeeded,
set its component healthy; otherwise leave the map untouched. -/
def applyProbe (m : HealthStatusMap) (step : String × Bool) :
    HealthStatusMap :=
  if step.2 then recordResult m step.1 true else m

/-- The four probe blocks of `main` (lines 75-118) in source order:
component name paired with whether its probe succeeded. -/
def probeSteps (c : Config) (inp : RunInput) : List (String × Bool) :=
  [("dashboard_ui", dashboardAccessible inp),
   ("manager_api", managerAccessible inp),
   ("indexer_api", indexerAccessible inp),
   ("ssl_validation", sslConfigured c)]

/-- The same state sequence as a function of the four probe booleans. -/
def stateAfterBools (b1 b2 b3 b4 : Bool) (j : Nat) : HealthStatusMap :=
  (([("dashboard_ui", b1), ("manager_api", b2),
     ("indexer_api", b3), ("ssl_validation", b4)]).take j).foldl
    applyProbe initialHealthStatus

/-- The `health_status` map after the first `j` probe blocks have run. -/
def stateAfter (c : Config) (inp : RunInput) (j : Nat) : HealthStatusMap :=
  ((probeSteps c inp).take j).foldl applyProbe initialHealthStatus

/-- The five successive values the `health_status` map takes during a
run: initial, then after each of the four probe blocks. -/
def runStates (c : Config) (inp : RunInput) : List HealthStatusMap :=
  (List.range 5).map (stateAfter c inp)

/-- The `health_status` map once all four probe blocks have run. -/
def finalHealthStatus (c : Config) (inp : RunInput) : HealthStatusMap :=
  stateAfter c inp 4

/-- The value a declared component has in the map after `j` probe
blocks (the four keys are always present, so the default is unused). -/
def valueAt (c : Config) (inp : RunInput) (j : Nat) (i : Fin 4) : Bool :=
  ((stateAfter c inp j).lookup (declaredComponents.getD i.1 "")).getD false

/-- A run where no probe succeeds: every URL is plain `http` and every
HTTP call raises a connection error. -/
def allFailConfig : Config :=
  { dashboard_url := ⟨"http://localhost:443", "http"⟩,
    manager_api_url := ⟨"http://localhost:55000", "http"⟩,
    indexer_url := ⟨"http://localhost:9200", "http"⟩ }

/-- The probe outcomes of the all-failure run. -/
def allFailInput : RunInput :=
  { dashboardOutcome := .connectionError "connection refused",
    managerOutcome := .connectionError "connection refused",
    managerTime := 0,
    indexerOutcome := .connectionError "connection refused",
    indexerTime := 0 }

/-! ### Helper lemmas -/

/-- Each entry contributes at most 1 to the healthy count. -/
theorem healthyComponents_le (m : HealthStatusMap) :
    healthyComponents m ≤ m.length := by
  induction m with
  | nil => simp [healthyComponents]
  | cons p t ih =>
      simp only [healthyComponents, List.map_cons, List.sum_cons,
        List.length_cons] at *
      cases p.2 <;> simp <;> omega

/-! ### Claim theorems -/

/-- C1: for every nonempty HealthStatusMap with `k` of its `n` entries
healthy, `computeScore` returns exactly the rational `100 * k / n`, a
value that is never negative and never exceeds 100.  `computeScore` is
a pure function of the map, so it is recomputed identically each time
it is applied — nothing is cached. -/
theorem computeScore_exact (m : HealthStatusMap) (h : 0 < m.length) :
    computeScore m = 100 * (healthyComponents m : ℚ) / (m.length : ℚ)
    ∧ 0 ≤ computeScore m ∧ computeScore m ≤ 100 := by
  have hn : (0 : ℚ) < (m.length : ℚ) := by exact_mod_cast h
  have hle : (healthyComponents m : ℚ) ≤ (m.length : ℚ) := by
    exact_mod_cast healthyComponents_le m
  have hge : (0 : ℚ) ≤ (healthyComponents m : ℚ) := by positivity
  refine ⟨?_, ?_, ?_⟩
  · unfold computeScore totalComponents
    rw [div_mul_eq_mul_div, mul_comm]
  · unfold computeScore totalComponents
    positivity
  · unfold computeScore totalComponents
    rw [div_mul_eq_mul_div, div_le_iff₀ hn]
    nlinarith

/-- Witness for C1 at the initial map (4 entries, none healthy). -/
theorem computeScore_exact_witness :
    0 < initialHealthStatus.length
    ∧ (computeScore initialHealthStatus
        = 100 * (healthyComponents initialHealthStatus : ℚ)
            / (initialHealthStatus.length : ℚ)
       ∧ 0 ≤ computeScore initialHealthStatus
       ∧ computeScore initialHealthStatus ≤ 100) :=
  ⟨by decide, computeScore_exact initialHealthStatus (by decide)⟩

/-- C2: `classify` is a pure function of the score with thresholds
exactly 75 and 50, boundaries belonging to the higher tier, and the
value `main` returns is exactly the exit code of the verdict:
0 for healthy, 1 for degraded, 2 for unhealthy. -/
theorem classify_thresholds (s : ℚ) :
    (classify s = Verdict.healthy ↔ 75 ≤ s)
    ∧ (classify s = Verdict.degraded ↔ 50 ≤ s ∧ s < 75)
    ∧ (classify s = Verdict.unhealthy ↔ s < 50)
    ∧ finalStatus s = exitCode (classify s) := by
  unfold classify finalStatus exitCode
  split_ifs with h1 h2 <;>
    simp only [ge_iff_le, not_le] at h1 <;>
    try simp only [ge_iff_le, not_le] at h2
  · refine ⟨⟨fun _ => h1, fun _ => rfl⟩, ⟨fun hc => ?_, fun hc => ?_⟩,
      ⟨fun hc => ?_, fun hc => ?_⟩, rfl⟩
    · exact absurd hc (by decide)
    · linarith [hc.2]
    · exact absurd hc (by decide)
    · linarith
  · refine ⟨⟨fun hc => ?_, fun hc => ?_⟩, ⟨fun _ => ⟨h2, h1⟩, fun _ => rfl⟩,
      ⟨fun hc => ?_, fun hc => ?_⟩, rfl⟩
    · exact absurd hc (by decide)
    · linarith
    · exact absurd hc (by decide)
    · linarith
  · refine ⟨⟨fun hc => ?_, fun hc => ?_⟩, ⟨fun hc => ?_, fun hc => ?_⟩,
      ⟨fun _ => h2, fun _ => rfl⟩, rfl⟩
    · exact absurd hc (by decide)
    · linarith
    · exact absurd hc (by decide)
    · linarith [hc.1]

/-- A string with a nonempty prefix is nonempty. -/
theorem append_ne_empty_of_left (p m : String) (hp : p.length ≠ 0) :
    p ++ m ≠ "" := by
  intro hc
  have hlen := congrArg String.length hc
  rw [String.length_append] at hlen
  simp only [String.length] at hlen
  simp at hlen
  omega

/-- C3 (amended): neither probe helper ever raises — every exceptional
outcome is absorbed into an unhealthy result carrying the exception
description as detail.  `check_endpoint` prefixes an error category, so
its detail is always nonempty; `check_ui_accessibility` returns the
bare description `str(e)`, which is empty when the description is. -/
theorem probe_exceptions_absorbed (o : ProbeOutcome) (rt : ℚ)
    (h : o.isException = true) :
    (check_endpoint o rt).1 = false
    ∧ (∃ s, (check_endpoint o rt).2.2.2 = some s ∧ s ≠ "")
    ∧ (check_ui_accessibility o).1 = false
    ∧ (check_ui_accessibility o).2.2 = some o.message := by
  cases o with
  | response code => simp [ProbeOutcome.isException] at h
  | sslError m =>
      exact ⟨rfl, ⟨"SSL Error: " ++ m, rfl,
        append_ne_empty_of_left _ m (by decide)⟩, rfl, rfl⟩
  | connectionError m =>
      exact ⟨rfl, ⟨"Connection Error: " ++ m, rfl,
        append_ne_empty_of_left _ m (by decide)⟩, rfl, rfl⟩
  | timeout m =>
      exact ⟨rfl, ⟨"Timeout: " ++ m, rfl,
        append_ne_empty_of_left _ m (by decide)⟩, rfl, rfl⟩
  | otherError m =>
      exact ⟨rfl, ⟨"Error: " ++ m, rfl,
        append_ne_empty_of_left _ m (by decide)⟩, rfl, rfl⟩

/-- Witness for C3 at a concrete timeout outcome. -/
theorem probe_exceptions_absorbed_witness :
    (ProbeOutcome.timeout "request timed out").isException = true
    ∧ ((check_endpoint (ProbeOutcome.timeout "request timed out") 0).1 = false
       ∧ (∃ s, (check_endpoint (ProbeOutcome.timeout "request timed out")
                  0).2.2.2 = some s ∧ s ≠ "")
       ∧ (check_ui_accessibility
            (ProbeOutcome.timeout "request timed out")).1 = false
       ∧ (check_ui_accessibility
            (ProbeOutcome.timeout "request timed out")).2.2
          = some (ProbeOutcome.timeout "request timed out").message) :=
  ⟨rfl, probe_exceptions_absorbed (ProbeOutcome.timeout "request timed out")
    0 rfl⟩

/-- C3 counterexample: an exception with an empty description (Python
allows `str(e) == ""`) makes `check_ui_accessibility` return an
unhealthy result whose detail is the empty string, refuting the claim
that the detail is always nonempty. -/
theorem check_ui_empty_detail_counterexample :
    (check_ui_accessibility (ProbeOutcome.otherError "")).1 = false
    ∧ (check_ui_accessibility (ProbeOutcome.otherError "")).2.2 = some ""
    ∧ ¬ (∀ s, (check_ui_accessibility (ProbeOutcome.otherError "")).2.2
          = some s → s ≠ "") :=
  ⟨rfl, rfl, fun h => h "" rfl rfl⟩

/-- C9: a reachability probe reports healthy exactly when the status
code is 200; any other code yields an unhealthy result whose detail is
`"HTTP <code>"`, while the actual status code is still returned. -/
theorem status_code_interpretation (code : Nat) (rt : ℚ) :
    ((check_endpoint (ProbeOutcome.response code) rt).1 = true ↔ code = 200)
    ∧ (check_endpoint (ProbeOutcome.response code) rt).2.2.1 = code
    ∧ (code ≠ 200 →
        (check_endpoint (ProbeOutcome.response code) rt).2.2.2
          = some ("HTTP " ++ toString code))
    ∧ ((check_ui_accessibility (ProbeOutcome.response code)).1 = true
        ↔ code = 200)
    ∧ (check_ui_accessibility (ProbeOutcome.response code)).2.1 = code
    ∧ (code ≠ 200 →
        (check_ui_accessibility (ProbeOutcome.response code)).2.2
          = some ("HTTP " ++ toString code)) := by
  by_cases h : code = 200
  · subst h
    exact ⟨⟨fun _ => rfl, fun _ => rfl⟩, rfl, fun hc => absurd rfl hc,
      ⟨fun _ => rfl, fun _ => rfl⟩, rfl, fun hc => absurd rfl hc⟩
  · have hb : (code == 200) = false := by
      simpa using h
    refine ⟨⟨fun hc => ?_, fun hc => absurd hc h⟩, ?_, fun _ => ?_,
      ⟨fun hc => ?_, fun hc => absurd hc h⟩, ?_, fun _ => ?_⟩ <;>
      simp [check_endpoint, check_ui_accessibility, hb] at *

/-- Witness for C9 at status code 404. -/
theorem status_code_interpretation_witness :
    (404 : Nat) ≠ 200
    ∧ (check_endpoint (ProbeOutcome.response 404) 0).2.2.2
        = some ("HTTP " ++ toString 404)
    ∧ (check_ui_accessibility (ProbeOutcome.response 404)).2.2
        = some ("HTTP " ++ toString 404) :=
  ⟨by decide, (status_code_interpretation 404 0).2.2.1 (by decide),
    (status_code_interpretation 404 0).2.2.2.2.2 (by decide)⟩

/-- Overwriting an existing key makes it look up to the new value. -/
theorem lookup_map_set (m : HealthStatusMap) (k : String) (v : Bool)
    (hk : m.any (fun p => p.1 == k) = true) :
    (m.map (fun p => cond (p.1 == k) (p.1, v) p)).lookup k = some v := by
  induction m with
  | nil => simp at hk
  | cons p t ih =>
      cases hb : (p.1 == k) with
      | true =>
          have hp : p.1 = k := by simpa using hb
          simp [List.lookup, hb, hp]
      | false =>
          have ht : t.any (fun p => p.1 == k) = true := by
            simpa [List.any_cons, hb] using hk
          have hki : (k == p.1) = false := by
            cases hkb : (k == p.1)
            · rfl
            · have hkp : k = p.1 := by simpa using hkb
              simp [hkp] at hb
          simp [List.lookup, hb, hki, ih ht]

/-- Overwriting key `k` leaves every other key's lookup unchanged. -/
theorem lookup_map_other (m : HealthStatusMap) (k : String) (v : Bool)
    (k2 : String) (hne : k2 ≠ k) :
    (m.map (fun p => cond (p.1 == k) (p.1, v) p)).lookup k2
      = m.lookup k2 := by
  induction m with
  | nil => rfl
  | cons p t ih =>
      cases hb : (p.1 == k) with
      | true =>
          have hp : p.1 = k := by simpa using hb
          have hf : (k2 == p.1) = false := beq_false_of_ne (hp ▸ hne)
          simp [List.lookup, hb, hf, ih]
      | false =>
          cases hkb : (k2 == p.1) with
          | true => simp [List.lookup, hb, hkb]
          | false => simp [List.lookup, hb, hkb, ih]

/-- Appending a fresh key makes it look up to the appended value. -/
theorem lookup_append_absent (m : HealthStatusMap) (k : String) (v : Bool)
    (h : m.any (fun p => p.1 == k) = false) :
    (m ++ [(k, v)]).lookup k = some v := by
  induction m with
  | nil => simp [List.lookup]
  | cons p t ih =>
      simp only [List.any_cons, Bool.or_eq_false_iff] at h
      have : (k == p.1) = false := by
        cases hb : (p.1 == k) <;> simp [hb] at h ⊢
        · exact fun hc => by simp [hc] at hb
      simpa [List.lookup, this] using ih h.2

/-- Appending a pair with a different key changes no other lookup. -/
theorem lookup_append_other (m : HealthStatusMap) (k : String) (v : Bool)
    (k2 : String) (hne : k2 ≠ k) :
    (m ++ [(k, v)]).lookup k2 = m.lookup k2 := by
  induction m with
  | nil => simp [List.lookup, beq_false_of_ne hne]
  | cons p t ih =>
      by_cases hk2 : k2 = p.1
      · simp [List.lookup, hk2]
      · simp [List.lookup, beq_false_of_ne hk2, ih]

/-- A key that looks up to nothing is matched by no entry. -/
theorem any_eq_false_of_lookup_none (m : HealthStatusMap) (k : String)
    (h : m.lookup k = none) : m.any (fun p => p.1 == k) = false := by
  induction m with
  | nil => rfl
  | cons p t ih =>
      by_cases hp : p.1 = k
      · simp [List.lookup, hp] at h
      · have hp2 : (p.1 == k) = false := by simpa using hp
        simp only [List.lookup, beq_false_of_ne (Ne.symm hp)] at h
        simp [List.any_cons, hp2, ih h]

/-- C6 (amended): `recordResult` is the Python dict assignment — it
sets exactly the named key (every other lookup is unchanged), and for
a name not already in the map it does not fail: it appends the new
key at the end of the map instead of signalling an error. -/
theorem recordResult_update (m : HealthStatusMap) (k : String) (v : Bool) :
    (recordResult m k v).lookup k = some v
    ∧ (∀ k2, k2 ≠ k → (recordResult m k v).lookup k2 = m.lookup k2)
    ∧ (m.lookup k = none → recordResult m k v = m ++ [(k, v)]) := by
  by_cases hk : m.any (fun p => p.1 == k) = true
  · refine ⟨?_, fun k2 hne => ?_, fun hnone => ?_⟩
    · unfold recordResult
      rw [if_pos hk]
      exact lookup_map_set m k v hk
    · unfold recordResult
      rw [if_pos hk]
      exact lookup_map_other m k v k2 hne
    · have hfalse := any_eq_false_of_lookup_none m k hnone
      rw [hfalse] at hk
      exact absurd hk (by decide)
  · have hk2 : m.any (fun p => p.1 == k) = false := by
      cases h : m.any (fun p => p.1 == k)
      · rfl
      · exact absurd h hk
    refine ⟨?_, fun k2 hne => ?_, fun _ => ?_⟩
    · unfold recordResult
      rw [if_neg hk]
      exact lookup_append_absent m k v hk2
    · unfold recordResult
      rw [if_neg hk]
      exact lookup_append_other m k v k2 hne
    · unfold recordResult
      rw [if_neg hk]

/-- Witness for C6: setting a declared key updates it and leaves the
others unchanged; the undeclared key `"store"` is appended. -/
theorem recordResult_update_witness :
    (recordResult initialHealthStatus "dashboard_ui" true).lookup
        "dashboard_ui" = some true
    ∧ (recordResult initialHealthStatus "dashboard_ui" true).lookup
        "manager_api" = some false
    ∧ recordResult initialHealthStatus "store" false
        = initialHealthStatus ++ [("store", false)] :=
  ⟨(recordResult_update initialHealthStatus "dashboard_ui" true).1,
   ((recordResult_update initialHealthStatus "dashboard_ui" true).2.1
      "manager_api" (by decide)).trans (by decide),
   (recordResult_update initialHealthStatus "store" false).2.2 (by decide)⟩

/-- C6 counterexample: recording under the undeclared name `"cache"`
does not fail and does not leave the map unchanged — the key is
silently inserted (Python dict assignment), so no UnknownComponentError
exists in the code. -/
theorem recordResult_cache_counterexample :
    recordResult initialHealthStatus "cache" true ≠ initialHealthStatus
    ∧ (recordResult initialHealthStatus "cache" true).lookup "cache"
        = some true
    ∧ (recordResult initialHealthStatus "cache" true).length = 5 := by
  refine ⟨?_, by decide, by decide⟩
  decide

/-- Final-map lookups as a function of the four probe booleans. -/
theorem final_lookup_bools (b1 b2 b3 b4 : Bool) :
    (stateAfterBools b1 b2 b3 b4 4).lookup "dashboard_ui" = some b1
    ∧ (stateAfterBools b1 b2 b3 b4 4).lookup "manager_api" = some b2
    ∧ (stateAfterBools b1 b2 b3 b4 4).lookup "indexer_api" = some b3
    ∧ (stateAfterBools b1 b2 b3 b4 4).lookup "ssl_validation" = some b4
    ∧ (stateAfterBools b1 b2 b3 b4 4).map Prod.fst = declaredComponents := by
  revert b1 b2 b3 b4
  decide

/-- The run invariant as a function of the four probe booleans. -/
theorem run_invariant_bools (b1 b2 b3 b4 : Bool) :
    (((List.range 5).map (stateAfterBools b1 b2 b3 b4)).all
        fun s => s.map Prod.fst == declaredComponents) = true
    ∧ stateAfterBools b1 b2 b3 b4 0 = initialHealthStatus
    ∧ (initialHealthStatus.all fun p => p.2 == false) = true
    ∧ ∀ (i : Fin 4) (j : Fin 5),
        ((stateAfterBools b1 b2 b3 b4 j.1).lookup
            (declaredComponents.getD i.1 "")).getD false
          = ([b1, b2, b3, b4].getD i.1 false && decide (i.1 < j.1)) := by
  revert b1 b2 b3 b4
  decide

/-- Each probe block turns one state into the next, in order. -/
theorem seq_step_bools (b1 b2 b3 b4 : Bool) :
    ∀ j : Fin 4,
      stateAfterBools b1 b2 b3 b4 (j.1 + 1)
        = applyProbe (stateAfterBools b1 b2 b3 b4 j.1)
            ([("dashboard_ui", b1), ("manager_api", b2), ("indexer_api", b3),
              ("ssl_validation", b4)].getD j.1 ("", false)) := by
  revert b1 b2 b3 b4
  decide

/-- Every state of a run has exactly four entries. -/
theorem length_stateAfterBools (b1 b2 b3 b4 : Bool) :
    (stateAfterBools b1 b2 b3 b4 4).length = 4 := by
  revert b1 b2 b3 b4
  decide

/-- Over a four-entry map, the score is below 100 exactly when fewer
than four entries are healthy. -/
theorem score_lt_100_iff (m : HealthStatusMap) (hlen : m.length = 4) :
    computeScore m < 100 ↔ healthyComponents m < 4 := by
  unfold computeScore totalComponents
  rw [hlen]
  push_cast
  rw [div_mul_eq_mul_div, div_lt_iff₀ (by norm_num : (0:ℚ) < 4)]
  constructor
  · intro h
    have hq : (healthyComponents m : ℚ) < 4 := by nlinarith
    exact_mod_cast hq
  · intro h
    have hq : (healthyComponents m : ℚ) < 4 := by exact_mod_cast h
    nlinarith

/-- The recommendation block as a function of the four probe booleans. -/
theorem recommend_bools (b1 b2 b3 b4 : Bool) :
    (recommend (computeScore (stateAfterBools b1 b2 b3 b4 4))
        (stateAfterBools b1 b2 b3 b4 4) = []
      ↔ ((stateAfterBools b1 b2 b3 b4 4).all fun p => p.2) = true)
    ∧ recommend (computeScore (stateAfterBools b1 b2 b3 b4 4))
        (stateAfterBools b1 b2 b3 b4 4)
      = (stateAfterBools b1 b2 b3 b4 4).foldr
          (fun p acc => (if p.2 then [] else componentHints p.1) ++ acc)
          [] := by
  have hgate := score_lt_100_iff (stateAfterBools b1 b2 b3 b4 4)
    (length_stateAfterBools b1 b2 b3 b4)
  simp only [recommend, hgate]
  clear hgate
  cases b1 <;> cases b2 <;> cases b3 <;> cases b4 <;> decide

/-- The SSL check passes exactly when all three schemes are https. -/
theorem sslConfigured_eq_schemes (c : Config) :
    sslConfigured c
      = ((c.dashboard_url.scheme == "https")
         && (c.manager_api_url.scheme == "https")
         && (c.indexer_url.scheme == "https")) := by
  unfold sslConfigured sslIssues
  cases h1 : (c.dashboard_url.scheme == "https") <;>
  cases h2 : (c.manager_api_url.scheme == "https") <;>
  cases h3 : (c.indexer_url.scheme == "https") <;>
    simp [h1, h2, h3]

/-- C4: when every probe fails, the completed run still yields a score
of exactly 0, the unhealthy verdict with exit code 2, and the full set
of remediation recommendations for all four components. -/
theorem total_failure_run :
    computeScore (finalHealthStatus allFailConfig allFailInput) = 0
    ∧ classify (computeScore (finalHealthStatus allFailConfig allFailInput))
        = Verdict.unhealthy
    ∧ finalStatus
        (computeScore (finalHealthStatus allFailConfig allFailInput)) = 2
    ∧ recommend
        (computeScore (finalHealthStatus allFailConfig allFailInput))
        (finalHealthStatus allFailConfig allFailInput)
      = dashboardHints ++ managerHints ++ indexerHints ++ sslHints
    ∧ ((finalHealthStatus allFailConfig allFailInput).all
        fun p => p.2 == false) = true := by
  have hmap : finalHealthStatus allFailConfig allFailInput
      = initialHealthStatus := by decide
  have hh : healthyComponents initialHealthStatus = 0 := by decide
  have hscore : computeScore (finalHealthStatus allFailConfig allFailInput)
      = 0 := by
    rw [hmap]
    unfold computeScore totalComponents
    rw [hh, show initialHealthStatus.length = 4 from rfl]
    norm_num
  refine ⟨hscore, ?_, ?_, ?_, ?_⟩
  · rw [hscore]
    unfold classify
    rw [if_neg (by norm_num), if_neg (by norm_num)]
  · rw [hscore]
    unfold finalStatus
    rw [if_neg (by norm_num), if_neg (by norm_num)]
  · rw [hscore, hmap]
    unfold recommend
    rw [if_pos (by norm_num)]
    decide
  · rw [hmap]
    decide

/-- C5: the recommendation list of a run is empty exactly when every
entry of the final map is healthy, and it is the concatenation, over
the map's entries in declaration order, of the fixed hints keyed by
each unhealthy component's name. -/
theorem recommend_empty_iff_all_healthy (c : Config) (inp : RunInput) :
    (recommend (computeScore (finalHealthStatus c inp))
        (finalHealthStatus c inp) = []
      ↔ ((finalHealthStatus c inp).all fun p => p.2) = true)
    ∧ recommend (computeScore (finalHealthStatus c inp))
        (finalHealthStatus c inp)
      = (finalHealthStatus c inp).foldr
          (fun p acc => (if p.2 then [] else componentHints p.1) ++ acc)
          [] :=
  recommend_bools (dashboardAccessible inp) (managerAccessible inp)
    (indexerAccessible inp) (sslConfigured c)

/-- C7: throughout a run the map holds exactly the four declared keys
in declaration order, every key starts unhealthy, and each key's value
at every point of the run is healthy exactly when its own probe has
already run and succeeded — so it is set at most once. -/
theorem health_status_invariant (c : Config) (inp : RunInput) :
    ((runStates c inp).all
        fun s => s.map Prod.fst == declaredComponents) = true
    ∧ stateAfter c inp 0 = initialHealthStatus
    ∧ (initialHealthStatus.all fun p => p.2 == false) = true
    ∧ ∀ (i : Fin 4) (j : Fin 5),
        valueAt c inp j.1 i
          = ([dashboardAccessible inp, managerAccessible inp,
              indexerAccessible inp, sslConfigured c].getD i.1 false
             && decide (i.1 < j.1)) :=
  run_invariant_bools (dashboardAccessible inp) (managerAccessible inp)
    (indexerAccessible inp) (sslConfigured c)

/-- C8: the probes run one after another in the fixed declaration
order (each state is obtained from the previous one by applying the
next probe block), each component's recorded outcome is a function of
its own probe result alone, and the key order of the output map is the
fixed declaration order. -/
theorem probes_sequential_and_independent (c : Config) (inp : RunInput) :
    (probeSteps c inp).map Prod.fst = declaredComponents
    ∧ (∀ j : Fin 4,
        stateAfter c inp (j.1 + 1)
          = applyProbe (stateAfter c inp j.1)
              ((probeSteps c inp).getD j.1 ("", false)))
    ∧ (finalHealthStatus c inp).lookup "dashboard_ui"
        = some (check_ui_accessibility inp.dashboardOutcome).1
    ∧ (finalHealthStatus c inp).lookup "manager_api"
        = some (check_endpoint inp.managerOutcome inp.managerTime).1
    ∧ (finalHealthStatus c inp).lookup "indexer_api"
        = some (check_endpoint inp.indexerOutcome inp.indexerTime).1
    ∧ (finalHealthStatus c inp).lookup "ssl_validation"
        = some (sslIssues c).isEmpty
    ∧ (finalHealthStatus c inp).map Prod.fst = declaredComponents := by
  have h := final_lookup_bools (dashboardAccessible inp)
    (managerAccessible inp) (indexerAccessible inp) (sslConfigured c)
  exact ⟨rfl,
    seq_step_bools (dashboardAccessible inp) (managerAccessible inp)
      (indexerAccessible inp) (sslConfigured c),
    h.1, h.2.1, h.2.2.1, h.2.2.2.1, h.2.2.2.2⟩

/-- C10: the transport-security entry of a completed run is healthy
exactly when all three configured URLs have scheme `https` — nothing
but the parsed scheme is consulted, no certificate chain is examined —
and every HTTP request the harness issues carries `verify=False`. -/
theorem ssl_check_is_scheme_only (c : Config) (inp : RunInput) :
    ((finalHealthStatus c inp).lookup "ssl_validation" = some true
      ↔ (c.dashboard_url.scheme = "https"
          ∧ c.manager_api_url.scheme = "https"
          ∧ c.indexer_url.scheme = "https"))
    ∧ ((requestsIssued c).all fun r => r.verify == false) = true := by
  constructor
  · have h := (final_lookup_bools (dashboardAccessible inp)
      (managerAccessible inp) (indexerAccessible inp)
      (sslConfigured c)).2.2.2.1
    rw [show (finalHealthStatus c inp).lookup "ssl_validation"
          = some (sslConfigured c) from h,
        Option.some.injEq, sslConfigured_eq_schemes c]
    simp [Bool.and_eq_true, beq_iff_eq, and_assoc]
  · rfl

end HealthCheck
